import Mathlib

/-!
Shallow embedding of `src/Converter.py`, a Flask service that fetches a remote
image (by URL or Roblox asset id), normalizes it to RGB, resizes it and returns
the pixel grid as JSON.  Pure helpers of the source become Lean functions;
the PIL / requests library calls are modelled by an environment `Env` of
explicit functions (network responses, decoder, enhancement and resampling
pixel kernels), so that the control flow and all data-shape behaviour of the
handler is captured faithfully while library-internal pixel arithmetic that no
claim quantifies stays parametric.
-/

/-- PIL color modes used by this development (`image.mode` in the source).
`RGB`, `RGBA`, `LA` (grayscale with alpha) and `L` (grayscale). -/
inductive Mode where
  | RGB
  | RGBA
  | LA
  | L
deriving DecidableEq

/-- Number of channels a pixel of the given mode carries
(`len(image.getpixel(...))`, with single-channel ints counted as one). -/
def numChannels : Mode → Nat
  | Mode.RGB => 3
  | Mode.RGBA => 4
  | Mode.LA => 2
  | Mode.L => 1

/-- A decoded bitmap: dimensions, color mode, and the pixel accessor
(`image.getpixel((x, y))`), returning the list of channel values. -/
structure Bitmap where
  width : Nat
  height : Nat
  mode : Mode
  px : Nat → Nat → List Nat

/-- Well-formedness: every pixel access yields exactly as many channels as the
mode prescribes, as PIL guarantees for real images. -/
def BitmapWF (img : Bitmap) : Prop :=
  ∀ x y, (img.px x y).length = numChannels img.mode

/-- PIL resampling filters; the source only ever passes
`Image.Resampling.LANCZOS`. -/
inductive ResampleFilter where
  | LANCZOS
  | NEAREST
deriving DecidableEq

/-- An HTTP response as seen by the handler: `response.status_code`,
`response.content` (bytes) and the declared `content-type` header
(empty string when the header is absent). -/
structure HttpResponse where
  status : Nat
  content : List Nat
  contentType : String
deriving DecidableEq

/-- The two header sets the source sends on image fetches: the browser-like
`headers` dict (lines 128-150) and the mobile `alt_headers` dict used for the
403 retry (lines 156-160).  The individual header fields are not modelled:
no claim quantifies over their values, only over which set is used. -/
inductive HeaderSet where
  | browser
  | mobileAlt
deriving DecidableEq

/-- Observable outbound effects of a request, in order: a Roblox thumbnail
lookup (`requests.get(thumbnail_url)`), an image fetch with a given header
set, or a `time.sleep` of the given number of seconds. -/
inductive ReqEvent where
  | thumbLookup (assetId : String)
  | imageFetch (headers : HeaderSet)
  | sleepSecs (n : Nat)
deriving DecidableEq

/-- The environment a request runs against: the network's answers and the
pixel-level behaviour of the PIL library calls.
`net n` is the response to the n-th image fetch (counting from 0);
`thumb id` is `some u` when the Roblox thumbnail lookup returns HTTP 200 with
`data[0].imageUrl = u`, and `none` for every failing path (non-200, missing
field, exception);
`decode bytes` is the result of `Image.open` (`none` on decode failure),
paired with `image.format`;
`sharp`/`contr` are the pixel kernels of `ImageEnhance.Sharpness(...).enhance(1.2)`
and `ImageEnhance.Contrast(...).enhance(1.1)` (both preserve size and mode);
`resample` is the pixel kernel of `image.resize(size, filter)`. -/
structure Env where
  net : Nat → HttpResponse
  thumb : String → Option String
  decode : List Nat → Option (Bitmap × Option String)
  sharp : Bitmap → Nat → Nat → List Nat
  contr : Bitmap → Nat → Nat → List Nat
  resample : ResampleFilter → Bitmap → Int × Int → Nat → Nat → List Nat

/-- A `/convert-image` request after Flask/`int()` parsing: the optional `url`
and `id` query parameters and the parsed integer dimensions (defaulting to 32
when the parameter is absent, applied by the caller). -/
structure Request where
  url : Option String
  id : Option String
  width : Int
  height : Int
deriving DecidableEq

/-- One emitted pixel: the dict constructed at line 220 of the source. -/
structure PixelRecord where
  R : Int
  G : Int
  B : Int
deriving DecidableEq

/-- JSON error body: the `error` string plus the optional `url_tested` and
`suggestion` fields some error responses carry. -/
structure ErrorBody where
  error : String
  url_tested : Option String
  suggestion : Option String
deriving DecidableEq

/-- JSON success body of `/convert-image` (lines 229-237).  `processing_time`
(wall-clock float) and the constant `success: true` flag are not modelled. -/
structure SuccessBody where
  pixels : List PixelRecord
  width : Int
  height : Int
  total_pixels : Nat
  original_format : Option String
deriving DecidableEq

/-- A JSON response body: either an error object or a success object. -/
inductive Body where
  | err (e : ErrorBody)
  | ok (s : SuccessBody)
deriving DecidableEq

/-- An HTTP reply of the handler: status code plus JSON body. -/
structure HttpReply where
  status : Nat
  body : Body
deriving DecidableEq

/-- ASCII lowercasing of a character, modelling what Python `str.lower()`
does on the ASCII range (content-type strings are ASCII). -/
def asciiLower (c : Char) : Char :=
  if 65 ≤ c.toNat ∧ c.toNat ≤ 90 then Char.ofNat (c.toNat + 32) else c

/-- Python `str.lower()`, modelled character-wise on the ASCII range. -/
def pyLower (s : String) : String :=
  String.mk (s.data.map asciiLower)

/-- Bool test that `needle` occurs as a contiguous substring of `hay`
(Python `needle in hay` on strings), over explicit character lists. -/
def listContainsSub (n : List Char) : List Char → Bool
  | [] => n.isEmpty
  | c :: t => n.isPrefixOf (c :: t) || listContainsSub n t

/-- Python `needle in hay` for strings. -/
def containsSub (needle hay : String) : Bool :=
  listContainsSub needle.data hay.data

/-- Python `str.isdigit` on a single character: true iff the character has
Unicode property Numeric_Type Digit or Decimal.  Modelled exactly on the
Latin-1 range, where these are the ASCII digits `0`-`9` (Decimal) and the
superscripts U+00B9, U+00B2, U+00B3 (Digit); characters above U+00FF (further
Unicode digit characters) are not classified by this development and map to
false. -/
def pyCharIsDigit (c : Char) : Bool :=
  c.isDigit || c = '²' || c = '³' || c = '¹'

/-- Python `str.isdigit`: false on the empty string, else true iff every
character is a digit in the sense of `pyCharIsDigit`. -/
def pyStrIsDigit (s : String) : Bool :=
  !s.isEmpty && s.data.all pyCharIsDigit

/-- Source `is_roblox_asset_id` (lines 25-29).  The `isinstance(url_or_id, str)`
guard always holds here because the model types the input as a string. -/
def is_roblox_asset_id (url_or_id : String) : Bool :=
  pyStrIsDigit url_or_id

/-- Source constant `ROBLOX_ASSET_URL` (line 18), with the `.format(asset_id)`
substitution applied. -/
def robloxAssetUrl (assetId : String) : String :=
  "https://assetdelivery.roblox.com/v1/asset/?id=" ++ assetId

/-- Source `get_roblox_image_url` (lines 31-49): one thumbnail lookup; on a
200 answer carrying `data[0].imageUrl` that URL is returned, and every other
path (non-200, missing field, raised exception) falls back to the direct
asset URL.  Also returns the outbound-request trace. -/
def get_roblox_image_url (env : Env) (asset_id : String) : String × List ReqEvent :=
  (match env.thumb asset_id with
   | some imageUrl => imageUrl
   | none => robloxAssetUrl asset_id,
   [ReqEvent.thumbLookup asset_id])

/-- Python `DIV255` rounding division from PIL's `Paste.c`
(`SHIFTFORDIV255(x + 128)`), equal to `round(x / 255)` on the byte range. -/
def pilDiv255 (x : Nat) : Nat :=
  ((x + 128) / 256 + (x + 128)) / 256

/-- One channel of `background.paste(image, mask=alpha)` with a white
background (lines 55-56): `DIV255(255 * (255 - a) + c * a)`. -/
def blendWhite (c a : Nat) : Nat :=
  pilDiv255 (255 * (255 - a) + c * a)

/-- Lines 55-57 of the source: a white RGB background of the same size with
the image pasted on it, masked by its alpha channel. -/
def compositeOnWhite (image : Bitmap) : Bitmap :=
  { width := image.width, height := image.height, mode := Mode.RGB,
    px := fun x y =>
      match image.px x y with
      | [r, g, b, a] => [blendWhite r a, blendWhite g a, blendWhite b a]
      | _ => [255, 255, 255] }

/-- PIL `image.convert('RGB')` (line 59) for the modes of this development:
`L` replicates the gray value, `LA` replicates the gray value and drops the
alpha channel, `RGBA` drops the alpha channel. -/
def convertRGB (image : Bitmap) : Bitmap :=
  { width := image.width, height := image.height, mode := Mode.RGB,
    px := fun x y =>
      match image.mode, image.px x y with
      | Mode.L, [v] => [v, v, v]
      | Mode.LA, [v, _] => [v, v, v]
      | Mode.RGBA, [r, g, b, _] => [r, g, b]
      | _, p => p }

/-- Lines 53-59 of `enhance_image_quality`: the color-mode normalization.
Only mode `RGBA` is composited over a white background; every other non-RGB
mode is converted directly. -/
def normalize_mode (image : Bitmap) : Bitmap :=
  if image.mode ≠ Mode.RGB then
    if image.mode = Mode.RGBA then compositeOnWhite image
    else convertRGB image
  else image

/-- Source `enhance_image_quality` (lines 51-67): mode normalization followed
by the sharpness and contrast enhancement kernels (which preserve size and
mode, as PIL's `ImageEnhance` does). -/
def enhance_image_quality (env : Env) (image : Bitmap) : Bitmap :=
  let image := normalize_mode image
  let image := { image with px := env.sharp image }
  { image with px := env.contr image }

/-- PIL `image.resize(size, filter)`: fails (ValueError) when a requested
dimension is negative, else yields a bitmap of exactly the requested size, of
the same mode, with pixels given by the library's resampling kernel. -/
def pilResize (env : Env) (f : ResampleFilter) (image : Bitmap) (size : Int × Int) :
    Option Bitmap :=
  if size.1 < 0 ∨ size.2 < 0 then none
  else some
    { width := size.1.toNat, height := size.2.toNat, mode := image.mode,
      px := env.resample f image size }

/-- Source `resize_with_quality` (lines 69-81): if either source dimension is
below the corresponding target one, first resize to
`(max(w, 2*tw), max(h, 2*th))`, then always resize to the exact target, both
with the LANCZOS filter. -/
def resize_with_quality (env : Env) (image : Bitmap) (target : Int × Int) :
    Option Bitmap :=
  let step1 : Option Bitmap :=
    if (image.width : Int) < target.1 ∨ (image.height : Int) < target.2 then
      pilResize env ResampleFilter.LANCZOS image
        (max (image.width : Int) (target.1 * 2), max (image.height : Int) (target.2 * 2))
    else some image
  match step1 with
  | none => none
  | some image2 => pilResize env ResampleFilter.LANCZOS image2 target

/-- Python clamping at lines 216-218: `max(0, min(255, int(r)))`. -/
def clampChannel (v : Int) : Int :=
  max 0 (min 255 v)

/-- Lines 204-220: build one PixelRecord from a pixel value.  A tuple of at
least three channels yields its first three; a single channel value (PIL
returns a bare int for single-channel modes) is replicated to all three; any
other shape (the unreachable defensive branches) yields zeros.  Each channel
is clamped to [0, 255]. -/
def pixelRecordOf (pixel : List Nat) : PixelRecord :=
  match pixel with
  | r :: g :: b :: _ =>
      { R := clampChannel r, G := clampChannel g, B := clampChannel b }
  | [v] =>
      { R := clampChannel v, G := clampChannel v, B := clampChannel v }
  | _ =>
      { R := clampChannel 0, G := clampChannel 0, B := clampChannel 0 }

/-- Lines 200-220: the flattening loop, `for y in range(height): for x in
range(width)`, emitting one record per pixel in row-major order. -/
def flattenPixels (img : Bitmap) : List PixelRecord :=
  (List.range img.height).flatMap fun y =>
    (List.range img.width).map fun x => pixelRecordOf (img.px x y)

/-- Python truthiness-or at line 108:
`request.args.get('url') or request.args.get('id')`. -/
def pyOr (a b : Option String) : Option String :=
  match a with
  | some s => if s = "" then b else some s
  | none => b

/-- Number of image-fetch requests recorded in a trace. -/
def countFetches (log : List ReqEvent) : Nat :=
  (log.filter fun e =>
    match e with
    | ReqEvent.imageFetch _ => true
    | _ => false).length

/-- Lines 152-166: the image fetch with its two conditional retries.  The
first GET uses the browser headers; a 403 answer triggers a retry with the
mobile `alt_headers`; independently afterwards, a 429 answer triggers a
2-second sleep and a retry with the original browser headers.  Returns the
response the handler goes on to inspect, plus the outbound-event trace. -/
def fetchImage (env : Env) : HttpResponse × List ReqEvent :=
  let response := env.net 0
  let log : List ReqEvent := [ReqEvent.imageFetch HeaderSet.browser]
  let p1 : HttpResponse × List ReqEvent :=
    if response.status = 403 then
      (env.net 1, log ++ [ReqEvent.imageFetch HeaderSet.mobileAlt])
    else (response, log)
  if p1.1.status = 429 then
    (env.net (countFetches p1.2),
     p1.2 ++ [ReqEvent.sleepSecs 2, ReqEvent.imageFetch HeaderSet.browser])
  else p1

/-- Error string of line 113. -/
def maxDimMsg : String := "Maximum dimensions are 512x512"

/-- Error string of line 117. -/
def noInputMsg : String :=
  "No URL or asset ID provided in query parameters (use ?url= or ?id=)"

/-- Source `convert_image` (lines 103-247): the `/convert-image` handler.
Returns the HTTP reply together with the trace of outbound effects.
Unmodelled details that no claim touches: logging, `processing_time`, the
`success: true` flag, the `SUPPORTED_FORMATS` warning (log only), the header
dict contents and `Referer` pattern-match, and the exception text appended to
the `Failed to open image` / `Unexpected error` messages. -/
def convert_image (env : Env) (req : Request) : HttpReply × List ReqEvent :=
  let image_input := pyOr req.url req.id
  if req.width > 512 ∨ req.height > 512 then
    ({ status := 400,
       body := Body.err { error := maxDimMsg, url_tested := none, suggestion := none } },
     [])
  else if image_input = none ∨ image_input = some "" then
    ({ status := 400,
       body := Body.err { error := noInputMsg, url_tested := none, suggestion := none } },
     [])
  else
    let input := image_input.getD ""
    let resolved : String × List ReqEvent :=
      if is_roblox_asset_id input then get_roblox_image_url env input
      else (input, [])
    let image_url := resolved.1
    let fr := fetchImage env
    let log := resolved.2 ++ fr.2
    let response := fr.1
    if response.status ≠ 200 then
      ({ status := 500,
         body := Body.err
           { error := "Failed to fetch image: HTTP " ++ toString response.status,
             url_tested := some image_url,
             suggestion := some "Try a different image URL or check if the image is publicly accessible" } },
       log)
    else if response.content.length = 0 then
      ({ status := 500,
         body := Body.err
           { error := "Empty image file received", url_tested := none, suggestion := none } },
       log)
    else
      let content_type := pyLower response.contentType
      if content_type ≠ "" ∧
          ¬ (containsSub "image/" content_type = true ∨
             containsSub "application/octet-stream" content_type = true) then
        ({ status := 400,
           body := Body.err
             { error := "URL does not point to an image (content-type: " ++ content_type ++ ")",
               url_tested := none, suggestion := none } },
         log)
      else
        match env.decode response.content with
        | none =>
          ({ status := 500,
             body := Body.err
               { error := "Failed to open image",
                 url_tested := none,
                 suggestion := some "The URL might not point to a valid image file" } },
           log)
        | some (image0, original_format) =>
          let image1 := enhance_image_quality env image0
          match resize_with_quality env image1 (req.width, req.height) with
          | none =>
            ({ status := 500,
               body := Body.err
                 { error := "Unexpected error", url_tested := none, suggestion := none } },
             log)
          | some image2 =>
            let pixels := flattenPixels image2
            ({ status := 200,
               body := Body.ok
                 { pixels := pixels, width := req.width, height := req.height,
                   total_pixels := pixels.length, original_format := original_format } },
             log)

/-! ### Shared helper lemmas -/

/-- Length of a rectangular flatMap of rows: `h` rows of `w` entries each. -/
theorem flatRows_length {α : Type} (f : Nat → Nat → α) (w : Nat) :
    ∀ h : Nat,
      ((List.range h).flatMap fun y => (List.range w).map fun x => f y x).length = h * w := by
  intro h
  induction h with
  | zero => simp
  | succ n ih =>
    rw [List.range_succ, List.flatMap_append, List.length_append, ih]
    simp [Nat.succ_mul]

/-- Indexing a rectangular flatMap of rows at `y * w + x` hits row `y`,
column `x`. -/
theorem flatRows_get {α : Type} (f : Nat → Nat → α) (w : Nat) :
    ∀ h y x, y < h → x < w →
      ((List.range h).flatMap fun y => (List.range w).map fun x => f y x)[y * w + x]? =
        some (f y x) := by
  intro h
  induction h with
  | zero => intro y x hy _; omega
  | succ n ih =>
    intro y x hy hx
    rw [List.range_succ, List.flatMap_append]
    by_cases hyn : y < n
    · have hlt : y * w + x <
          ((List.range n).flatMap fun y => List.map (fun x => f y x) (List.range w)).length := by
        rw [flatRows_length]
        have hsucc : y + 1 ≤ n := hyn
        calc y * w + x < y * w + w := by omega
          _ = (y + 1) * w := by ring
          _ ≤ n * w := Nat.mul_le_mul_right w hsucc
      rw [List.getElem?_append, if_pos hlt]
      exact ih y x hyn hx
    · have hyeq : y = n := by omega
      subst hyeq
      rw [List.getElem?_append_right]
      · rw [flatRows_length, List.flatMap_singleton, Nat.add_sub_cancel_left,
          List.getElem?_map, List.getElem?_range hx]
        rfl
      · rw [flatRows_length]; omega

/-- The flattening loop emits exactly `height * width` records. -/
theorem flattenPixels_length (img : Bitmap) :
    (flattenPixels img).length = img.height * img.width :=
  flatRows_length (fun y x => pixelRecordOf (img.px x y)) img.width img.height

/-- The flattening loop is row-major: entry `y * width + x` is the record of
pixel `(x, y)`. -/
theorem flattenPixels_get (img : Bitmap) (y x : Nat)
    (hy : y < img.height) (hx : x < img.width) :
    (flattenPixels img)[y * img.width + x]? = some (pixelRecordOf (img.px x y)) :=
  flatRows_get (fun y x => pixelRecordOf (img.px x y)) img.width img.height y x hy hx

/-- Every emitted record comes from `pixelRecordOf`. -/
theorem flattenPixels_mem (img : Bitmap) (r : PixelRecord)
    (h : r ∈ flattenPixels img) : ∃ p, r = pixelRecordOf p := by
  unfold flattenPixels at h
  rw [List.mem_flatMap] at h
  obtain ⟨y, _, hr⟩ := h
  rw [List.mem_map] at hr
  obtain ⟨x, _, hr⟩ := hr
  exact ⟨img.px x y, hr.symm⟩

/-- The clamp of line 216-218 keeps every value in [0, 255]. -/
theorem clampChannel_bounds (v : Int) :
    0 ≤ clampChannel v ∧ clampChannel v ≤ 255 := by
  unfold clampChannel
  exact ⟨le_max_left 0 _, max_le (by norm_num) (min_le_left 255 v)⟩

/-- Channel bounds of every record `pixelRecordOf` builds. -/
theorem pixelRecordOf_bounds (p : List Nat) :
    0 ≤ (pixelRecordOf p).R ∧ (pixelRecordOf p).R ≤ 255 ∧
    0 ≤ (pixelRecordOf p).G ∧ (pixelRecordOf p).G ≤ 255 ∧
    0 ≤ (pixelRecordOf p).B ∧ (pixelRecordOf p).B ≤ 255 := by
  unfold pixelRecordOf
  split <;>
    exact ⟨(clampChannel_bounds _).1, (clampChannel_bounds _).2,
           (clampChannel_bounds _).1, (clampChannel_bounds _).2,
           (clampChannel_bounds _).1, (clampChannel_bounds _).2⟩

/-- `pilResize` on a nonnegative target always succeeds, with the exact
requested dimensions and the mode of its input. -/
theorem pilResize_spec (env : Env) (f : ResampleFilter) (img : Bitmap)
    (size : Int × Int) (h1 : 0 ≤ size.1) (h2 : 0 ≤ size.2) :
    pilResize env f img size =
      some { width := size.1.toNat, height := size.2.toNat, mode := img.mode,
             px := env.resample f img size } := by
  unfold pilResize
  rw [if_neg]
  push_neg
  exact ⟨h1, h2⟩

/-- Whatever `pilResize` returns has exactly the requested size and the mode
of its input. -/
theorem pilResize_dims (env : Env) (f : ResampleFilter) (img : Bitmap)
    (size : Int × Int) (out : Bitmap) (h : pilResize env f img size = some out) :
    out.width = size.1.toNat ∧ out.height = size.2.toNat ∧ out.mode = img.mode ∧
    out.px = env.resample f img size := by
  unfold pilResize at h
  split at h
  · exact absurd h (by simp)
  · injection h with h
    subst h
    exact ⟨rfl, rfl, rfl, rfl⟩

/-- Whatever `resize_with_quality` returns has exactly the target size. -/
theorem resize_with_quality_dims (env : Env) (img : Bitmap) (target : Int × Int)
    (out : Bitmap) (h : resize_with_quality env img target = some out) :
    out.width = target.1.toNat ∧ out.height = target.2.toNat := by
  simp only [resize_with_quality] at h
  split at h
  · exact absurd h (by simp)
  · next image2 heq =>
    obtain ⟨h1, h2, _, _⟩ := pilResize_dims env ResampleFilter.LANCZOS image2 target out h
    exact ⟨h1, h2⟩

/-- A list of length 1 is a singleton. -/
theorem list_of_length_one {α : Type} (l : List α) (h : l.length = 1) :
    ∃ a, l = [a] := by
  rcases l with _ | ⟨a, _ | ⟨b, t⟩⟩
  · simp at h
  · exact ⟨a, rfl⟩
  · simp at h

/-- A list of length 2 is a pair. -/
theorem list_of_length_two {α : Type} (l : List α) (h : l.length = 2) :
    ∃ a b, l = [a, b] := by
  rcases l with _ | ⟨a, _ | ⟨b, _ | ⟨c, t⟩⟩⟩
  · simp at h
  · simp at h
  · exact ⟨a, b, rfl⟩
  · simp at h

/-- A list of length 4 is a quadruple. -/
theorem list_of_length_four {α : Type} (l : List α) (h : l.length = 4) :
    ∃ a b c d, l = [a, b, c, d] := by
  rcases l with _ | ⟨a, _ | ⟨b, _ | ⟨c, _ | ⟨d, _ | ⟨e, t⟩⟩⟩⟩⟩
  · simp at h
  · simp at h
  · simp at h
  · simp at h
  · exact ⟨a, b, c, d, rfl⟩
  · simp at h

/-- The normalization step always yields an RGB bitmap and preserves
well-formedness (so every pixel afterwards has exactly three channels). -/
theorem normalize_mode_spec (img : Bitmap) (hwf : BitmapWF img) :
    (normalize_mode img).mode = Mode.RGB ∧ BitmapWF (normalize_mode img) := by
  cases hmode : img.mode
  case RGB =>
    have : normalize_mode img = img := by
      unfold normalize_mode
      rw [if_neg]
      simp [hmode]
    rw [this]
    constructor
    · exact hmode
    · exact hwf
  case RGBA =>
    have hn : normalize_mode img = compositeOnWhite img := by
      unfold normalize_mode
      rw [if_pos (by simp [hmode]), if_pos hmode]
    rw [hn]
    refine ⟨rfl, ?_⟩
    intro x y
    have hlen : (img.px x y).length = 4 := by rw [hwf x y, hmode]; rfl
    obtain ⟨r, g, b, a, hp⟩ := list_of_length_four _ hlen
    simp [compositeOnWhite, hp, numChannels]
  case LA =>
    have hn : normalize_mode img = convertRGB img := by
      unfold normalize_mode
      rw [if_pos (by simp [hmode]), if_neg (by simp [hmode])]
    rw [hn]
    refine ⟨rfl, ?_⟩
    intro x y
    have hlen : (img.px x y).length = 2 := by rw [hwf x y, hmode]; rfl
    obtain ⟨v, a, hp⟩ := list_of_length_two _ hlen
    simp [convertRGB, hp, hmode, numChannels]
  case L =>
    have hn : normalize_mode img = convertRGB img := by
      unfold normalize_mode
      rw [if_pos (by simp [hmode]), if_neg (by simp [hmode])]
    rw [hn]
    refine ⟨rfl, ?_⟩
    intro x y
    have hlen : (img.px x y).length = 1 := by rw [hwf x y, hmode]; rfl
    obtain ⟨v, hp⟩ := list_of_length_one _ hlen
    simp [convertRGB, hp, hmode, numChannels]

/-- `enhance_image_quality` always yields an RGB bitmap, and a well-formed
one whenever the enhancement kernels preserve channel counts. -/
theorem enhance_image_quality_spec (env : Env) (img : Bitmap) (hwf : BitmapWF img)
    (hs : ∀ b, BitmapWF b → ∀ x y, (env.sharp b x y).length = numChannels b.mode)
    (hc : ∀ b, BitmapWF b → ∀ x y, (env.contr b x y).length = numChannels b.mode) :
    (enhance_image_quality env img).mode = Mode.RGB ∧
    BitmapWF (enhance_image_quality env img) := by
  obtain ⟨hm, hw⟩ := normalize_mode_spec img hwf
  set n := normalize_mode img with hn
  have hw1 : BitmapWF { n with px := env.sharp n } := by
    intro x y
    exact hs n hw x y
  constructor
  · exact hm
  · intro x y
    exact hc { n with px := env.sharp n } hw1 x y

/-- The first element of every fetch trace is a browser-header image fetch,
and no fetch trace contains a thumbnail lookup. -/
theorem fetchImage_trace (env : Env) :
    (fetchImage env).2.head? = some (ReqEvent.imageFetch HeaderSet.browser) ∧
    ∀ i, ReqEvent.thumbLookup i ∉ (fetchImage env).2 := by
  simp only [fetchImage]
  split <;> split <;> simp

/-- Shape of every successful handler reply: the pixels are the flattening of
a bitmap whose dimensions are exactly the requested ones, and `total_pixels`
is the length of that sequence. -/
theorem convert_image_success_shape (env : Env) (req : Request) (s : SuccessBody)
    (t : List ReqEvent)
    (h : convert_image env req = ({ status := 200, body := Body.ok s }, t)) :
    ∃ img : Bitmap, img.width = req.width.toNat ∧ img.height = req.height.toNat ∧
      s.pixels = flattenPixels img ∧ s.total_pixels = s.pixels.length := by
  simp only [convert_image] at h
  split at h
  · simp at h
  split at h
  · simp at h
  split at h
  · simp at h
  split at h
  · simp at h
  split at h
  · simp at h
  split at h
  · simp at h
  next image0 fmt hdec =>
    split at h
    · simp at h
    next image2 hresize =>
      rw [Prod.mk.injEq] at h
      obtain ⟨h1, _⟩ := h
      rw [HttpReply.mk.injEq] at h1
      obtain ⟨_, hbody⟩ := h1
      injection hbody with hs
      obtain ⟨hw, hh⟩ := resize_with_quality_dims env _ (req.width, req.height) image2 hresize
      refine ⟨image2, hw, hh, ?_, ?_⟩
      · rw [← hs]
      · rw [← hs]

/-! ### Concrete instances used by witnesses and counterexamples -/

/-- A healthy network answer: HTTP 200, nonempty bytes, image content type. -/
def okResponse : HttpResponse :=
  { status := 200, content := [137, 80], contentType := "image/png" }

/-- A 1x1 RGBA test image whose only pixel is (10, 20, 30) at alpha 128. -/
def rgbaTestImage : Bitmap :=
  { width := 1, height := 1, mode := Mode.RGBA, px := fun _ _ => [10, 20, 30, 128] }

/-- A concrete environment: every fetch succeeds, the thumbnail lookup falls
back, decoding yields `rgbaTestImage` with format PNG, the enhancement
kernels are identities and resampling reads pixel (0, 0) of its source. -/
def envOk : Env :=
  { net := fun _ => okResponse,
    thumb := fun _ => none,
    decode := fun _ => some (rgbaTestImage, some "PNG"),
    sharp := fun b => b.px,
    contr := fun b => b.px,
    resample := fun _ b _ _ _ => b.px 0 0 }

/-- A concrete direct-URL request for a 1x1 output. -/
def reqOk : Request :=
  { url := some "http://example.com/a.png", id := none, width := 1, height := 1 }

/-! ### Claims -/

/-- C1: for every successful `/convert-image` request with width, height ≤ 512,
the returned pixels sequence has exactly width*height entries, `total_pixels`
equals that length, and the entries are ordered row-major over the resized
bitmap (all x for y = 0, then y = 1, ...), one PixelRecord per pixel. -/
theorem C1_success_pixel_grid (env : Env) (req : Request) (s : SuccessBody)
    (t : List ReqEvent) (hw : req.width ≤ 512) (hh : req.height ≤ 512)
    (h : convert_image env req = ({ status := 200, body := Body.ok s }, t)) :
    s.total_pixels = s.pixels.length ∧
    s.pixels.length = req.width.toNat * req.height.toNat ∧
    ∃ img : Bitmap, img.width = req.width.toNat ∧ img.height = req.height.toNat ∧
      s.pixels = flattenPixels img ∧
      ∀ y x, y < img.height → x < img.width →
        s.pixels[y * img.width + x]? = some (pixelRecordOf (img.px x y)) := by
  obtain ⟨img, hw1, hh1, hpix, htot⟩ := convert_image_success_shape env req s t h
  refine ⟨htot, ?_, img, hw1, hh1, hpix, ?_⟩
  · rw [hpix, flattenPixels_length, hw1, hh1, Nat.mul_comm]
  · intro y x hy hx
    rw [hpix]
    exact flattenPixels_get img y x hy hx

/-- The success body `convert_image envOk reqOk` produces. -/
def sOk : SuccessBody :=
  { pixels := [{ R := 132, G := 137, B := 142 }], width := 1, height := 1,
    total_pixels := 1, original_format := some "PNG" }

/-- Witness for C1 at the concrete request `reqOk` against `envOk`. -/
theorem C1_success_pixel_grid_witness :
    sOk.total_pixels = sOk.pixels.length ∧
    sOk.pixels.length = reqOk.width.toNat * reqOk.height.toNat ∧
    ∃ img : Bitmap, img.width = reqOk.width.toNat ∧ img.height = reqOk.height.toNat ∧
      sOk.pixels = flattenPixels img ∧
      ∀ y x, y < img.height → x < img.width →
        sOk.pixels[y * img.width + x]? = some (pixelRecordOf (img.px x y)) :=
  C1_success_pixel_grid envOk reqOk sOk [ReqEvent.imageFetch HeaderSet.browser]
    (by decide) (by decide) (by decide)

/-- C2: every PixelRecord emitted in a successful response has R, G, B
integer values in [0, 255], for every input image (alpha and grayscale
channels included, since the statement quantifies over all environments). -/
theorem C2_pixel_bounds (env : Env) (req : Request) (s : SuccessBody)
    (t : List ReqEvent)
    (h : convert_image env req = ({ status := 200, body := Body.ok s }, t)) :
    ∀ r ∈ s.pixels,
      0 ≤ r.R ∧ r.R ≤ 255 ∧ 0 ≤ r.G ∧ r.G ≤ 255 ∧ 0 ≤ r.B ∧ r.B ≤ 255 := by
  obtain ⟨img, _, _, hpix, _⟩ := convert_image_success_shape env req s t h
  intro r hr
  rw [hpix] at hr
  obtain ⟨p, rfl⟩ := flattenPixels_mem img r hr
  exact pixelRecordOf_bounds p

/-- Witness for C2 at the concrete request `reqOk` against `envOk`, applied
to the one record of its response. -/
theorem C2_pixel_bounds_witness :
    0 ≤ ({ R := 132, G := 137, B := 142 } : PixelRecord).R ∧
    ({ R := 132, G := 137, B := 142 } : PixelRecord).R ≤ 255 ∧
    0 ≤ ({ R := 132, G := 137, B := 142 } : PixelRecord).G ∧
    ({ R := 132, G := 137, B := 142 } : PixelRecord).G ≤ 255 ∧
    0 ≤ ({ R := 132, G := 137, B := 142 } : PixelRecord).B ∧
    ({ R := 132, G := 137, B := 142 } : PixelRecord).B ≤ 255 :=
  C2_pixel_bounds envOk reqOk sOk [ReqEvent.imageFetch HeaderSet.browser] (by decide)
    { R := 132, G := 137, B := 142 } (by decide)

/-- C7: a request with width > 512 or height > 512 is answered HTTP 400 with
the error `Maximum dimensions are 512x512`, and the empty outbound trace shows
that no asset resolution and no network fetch is attempted. -/
theorem C7_dimension_reject (env : Env) (req : Request)
    (h : req.width > 512 ∨ req.height > 512) :
    convert_image env req =
      ({ status := 400,
         body := Body.err { error := maxDimMsg, url_tested := none, suggestion := none } },
       []) := by
  simp only [convert_image]
  rw [if_pos h]

/-- A request asking for width 513. -/
def req513 : Request :=
  { url := some "http://example.com/a.png", id := none, width := 513, height := 32 }

/-- Witness for C7 at width 513. -/
theorem C7_dimension_reject_witness :
    convert_image envOk req513 =
      ({ status := 400,
         body := Body.err { error := maxDimMsg, url_tested := none, suggestion := none } },
       []) :=
  C7_dimension_reject envOk req513 (by decide)

/-- `resize_with_quality` on a nonnegative target always produces a bitmap of
exactly the target dimensions. -/
theorem resize_with_quality_total (env : Env) (img : Bitmap) (target : Int × Int)
    (h1 : 0 ≤ target.1) (h2 : 0 ≤ target.2) :
    ∃ out, resize_with_quality env img target = some out ∧
      out.width = target.1.toNat ∧ out.height = target.2.toNat := by
  simp only [resize_with_quality]
  split
  · next heq =>
    exfalso
    split at heq
    · rw [pilResize_spec env ResampleFilter.LANCZOS img
          (max (img.width : Int) (target.1 * 2), max (img.height : Int) (target.2 * 2))
          (le_trans (Int.natCast_nonneg _) (le_max_left _ _))
          (le_trans (Int.natCast_nonneg _) (le_max_left _ _))] at heq
      exact Option.noConfusion heq
    · exact Option.noConfusion heq
  · next image2 heq =>
    rw [pilResize_spec env ResampleFilter.LANCZOS image2 target h1 h2]
    exact ⟨_, rfl, rfl, rfl⟩

/-- C8: for every source bitmap and target (w, h): the resize always yields a
bitmap of exactly the requested dimensions; when either source dimension is
below the target one it goes through an intermediate bitmap at least twice
the target in each axis, and in every case the final step is a LANCZOS
resize to exactly (w, h). -/
theorem C8_resize_two_stage (env : Env) (img : Bitmap) (w h : Nat) :
    (∃ out, resize_with_quality env img ((w : Int), (h : Int)) = some out ∧
       out.width = w ∧ out.height = h) ∧
    ((img.width < w ∨ img.height < h) →
       ∃ mid, pilResize env ResampleFilter.LANCZOS img
           (max (img.width : Int) ((w : Int) * 2),
            max (img.height : Int) ((h : Int) * 2)) = some mid ∧
         2 * w ≤ mid.width ∧ 2 * h ≤ mid.height ∧
         resize_with_quality env img ((w : Int), (h : Int)) =
           pilResize env ResampleFilter.LANCZOS mid ((w : Int), (h : Int))) ∧
    (¬ (img.width < w ∨ img.height < h) →
       resize_with_quality env img ((w : Int), (h : Int)) =
         pilResize env ResampleFilter.LANCZOS img ((w : Int), (h : Int))) := by
  refine ⟨?_, ?_, ?_⟩
  · obtain ⟨out, heq, hw1, hh1⟩ := resize_with_quality_total env img ((w : Int), (h : Int))
      (Int.natCast_nonneg w) (Int.natCast_nonneg h)
    refine ⟨out, heq, ?_, ?_⟩
    · rw [hw1]; exact Int.toNat_ofNat w
    · rw [hh1]; exact Int.toNat_ofNat h
  · intro hc
    have hcI : (img.width : Int) < ((w : Int), (h : Int)).1 ∨
        (img.height : Int) < ((w : Int), (h : Int)).2 := by
      rcases hc with hc | hc
      · exact Or.inl (show (img.width : Int) < (w : Int) by exact_mod_cast hc)
      · exact Or.inr (show (img.height : Int) < (h : Int) by exact_mod_cast hc)
    have hmid := pilResize_spec env ResampleFilter.LANCZOS img
      (max (img.width : Int) ((w : Int) * 2), max (img.height : Int) ((h : Int) * 2))
      (le_trans (Int.natCast_nonneg _) (le_max_left _ _))
      (le_trans (Int.natCast_nonneg _) (le_max_left _ _))
    refine ⟨_, hmid, ?_, ?_, ?_⟩
    · show 2 * w ≤ (max (img.width : Int) ((w : Int) * 2)).toNat
      have hle : ((2 * w : Nat) : Int) ≤ max (img.width : Int) ((w : Int) * 2) := by
        refine le_trans ?_ (le_max_right _ _)
        push_cast
        ring_nf
        exact le_refl _
      calc 2 * w = ((2 * w : Nat) : Int).toNat := (Int.toNat_ofNat _).symm
        _ ≤ _ := Int.toNat_le_toNat hle
    · show 2 * h ≤ (max (img.height : Int) ((h : Int) * 2)).toNat
      have hle : ((2 * h : Nat) : Int) ≤ max (img.height : Int) ((h : Int) * 2) := by
        refine le_trans ?_ (le_max_right _ _)
        push_cast
        ring_nf
        exact le_refl _
      calc 2 * h = ((2 * h : Nat) : Int).toNat := (Int.toNat_ofNat _).symm
        _ ≤ _ := Int.toNat_le_toNat hle
    · simp only [resize_with_quality]
      rw [if_pos hcI, hmid]
  · intro hno
    have hnoI : ¬ ((img.width : Int) < ((w : Int), (h : Int)).1 ∨
        (img.height : Int) < ((w : Int), (h : Int)).2) := by
      push_neg at hno ⊢
      refine ⟨?_, ?_⟩
      · show (w : Int) ≤ (img.width : Int)
        exact_mod_cast hno.1
      · show (h : Int) ≤ (img.height : Int)
        exact_mod_cast hno.2
    simp only [resize_with_quality]
    rw [if_neg hnoI]

/-- Witness for C8: the 1x1 test image upscaled to 2x2 goes through the
two-stage path with an intermediate at least 4x4. -/
theorem C8_resize_two_stage_witness :
    ∃ mid, pilResize envOk ResampleFilter.LANCZOS rgbaTestImage
        (max (rgbaTestImage.width : Int) (((2 : Nat) : Int) * 2),
         max (rgbaTestImage.height : Int) (((2 : Nat) : Int) * 2)) = some mid ∧
      2 * 2 ≤ mid.width ∧ 2 * 2 ≤ mid.height ∧
      resize_with_quality envOk rgbaTestImage (((2 : Nat) : Int), ((2 : Nat) : Int)) =
        pilResize envOk ResampleFilter.LANCZOS mid (((2 : Nat) : Int), ((2 : Nat) : Int)) :=
  (C8_resize_two_stage envOk rgbaTestImage 2 2).2.1 (by decide)

/-- A list of length 3 is a triple. -/
theorem list_of_length_three {α : Type} (l : List α) (h : l.length = 3) :
    ∃ a b c, l = [a, b, c] := by
  rcases l with _ | ⟨a, _ | ⟨b, _ | ⟨c, _ | ⟨d, t⟩⟩⟩⟩
  · simp at h
  · simp at h
  · simp at h
  · exact ⟨a, b, c, rfl⟩
  · simp at h

/-- C9: every image returned by `enhance_image_quality` has mode RGB, hence
(through the mode- and channel-preserving resize) every pixel the flattening
loop reads is a 3-tuple, so the single-channel and non-tuple fallback
branches of `pixelRecordOf` are unreachable on any image that reaches
flattening. -/
theorem C9_enhance_rgb_flatten (env : Env) (img : Bitmap) (hwf : BitmapWF img)
    (hs : ∀ b, BitmapWF b → ∀ x y, (env.sharp b x y).length = numChannels b.mode)
    (hc : ∀ b, BitmapWF b → ∀ x y, (env.contr b x y).length = numChannels b.mode)
    (hr : ∀ f b size x y, BitmapWF b →
      (env.resample f b size x y).length = numChannels b.mode) :
    (enhance_image_quality env img).mode = Mode.RGB ∧
    (∀ x y, ∃ r g b, (enhance_image_quality env img).px x y = [r, g, b]) ∧
    ∀ target out,
      resize_with_quality env (enhance_image_quality env img) target = some out →
      out.mode = Mode.RGB ∧ ∀ x y, ∃ r g b, out.px x y = [r, g, b] := by
  obtain ⟨hm, hw⟩ := enhance_image_quality_spec env img hwf hs hc
  have hpres : ∀ b target out, BitmapWF b →
      pilResize env ResampleFilter.LANCZOS b target = some out →
      BitmapWF out ∧ out.mode = b.mode := by
    intro b target out hwfb heq
    obtain ⟨_, _, hmode, hpx⟩ := pilResize_dims env _ b target out heq
    refine ⟨?_, hmode⟩
    intro x y
    rw [hpx, hmode]
    exact hr _ b target x y hwfb
  refine ⟨hm, ?_, ?_⟩
  · intro x y
    have hl : ((enhance_image_quality env img).px x y).length = 3 := by
      have h3 := hw x y
      rw [hm] at h3
      exact h3
    exact list_of_length_three _ hl
  · intro target out hre
    simp only [resize_with_quality] at hre
    split at hre
    · simp at hre
    · next mid hmid =>
      have hmidspec : BitmapWF mid ∧ mid.mode = Mode.RGB := by
        split at hmid
        · obtain ⟨hwmid, hmmid⟩ := hpres _ _ _ hw hmid
          exact ⟨hwmid, by rw [hmmid, hm]⟩
        · injection hmid with hmid
          rw [← hmid]
          exact ⟨hw, hm⟩
      obtain ⟨hwmid, hmmid⟩ := hmidspec
      obtain ⟨hwout, hmout⟩ := hpres mid target out hwmid hre
      refine ⟨by rw [hmout, hmmid], ?_⟩
      intro x y
      have hl : (out.px x y).length = 3 := by
        have h3 := hwout x y
        rw [hmout, hmmid] at h3
        exact h3
      exact list_of_length_three _ hl

/-- Witness for C9 at the concrete RGBA test image against `envOk`. -/
theorem C9_enhance_rgb_flatten_witness :
    (enhance_image_quality envOk rgbaTestImage).mode = Mode.RGB ∧
    (∀ x y, ∃ r g b, (enhance_image_quality envOk rgbaTestImage).px x y = [r, g, b]) ∧
    ∀ target out,
      resize_with_quality envOk (enhance_image_quality envOk rgbaTestImage) target = some out →
      out.mode = Mode.RGB ∧ ∀ x y, ∃ r g b, out.px x y = [r, g, b] :=
  C9_enhance_rgb_flatten envOk rgbaTestImage (fun _ _ => rfl)
    (fun b hb x y => hb x y) (fun b hb x y => hb x y)
    (fun _ b _ _ _ hb => hb 0 0)

/-- When both validation checks pass, the outbound trace of the handler is
the resolution trace (a thumbnail lookup exactly when the input is classified
as an asset id) followed by the fetch trace. -/
theorem convert_image_trace (env : Env) (req : Request)
    (hdim : ¬ (req.width > 512 ∨ req.height > 512))
    (hin : ¬ (pyOr req.url req.id = none ∨ pyOr req.url req.id = some "")) :
    (convert_image env req).2 =
      (if is_roblox_asset_id ((pyOr req.url req.id).getD "") = true then
        [ReqEvent.thumbLookup ((pyOr req.url req.id).getD "")]
       else []) ++ (fetchImage env).2 := by
  have hres : ∀ u : String,
      (if is_roblox_asset_id u = true then get_roblox_image_url env u else (u, [])).2 =
        (if is_roblox_asset_id u = true then [ReqEvent.thumbLookup u] else []) := by
    intro u
    split
    · rfl
    · rfl
  simp only [convert_image]
  rw [if_neg hdim, if_neg hin]
  split
  · rw [hres]
  split
  · rw [hres]
  split
  · rw [hres]
  split
  · rw [hres]
  split
  · rw [hres]
  · rw [hres]

/-- The content-type error message always starts with the character `U`. -/
theorem ctype_msg_head (t : String) :
    ("URL does not point to an image (content-type: " ++ t ++ ")").data.head? =
      some 'U' := by
  cases t with
  | mk td => rfl

/-- The content-type error message never equals the dimension error. -/
theorem ctype_ne_maxdim (t : String)
    (h : "URL does not point to an image (content-type: " ++ t ++ ")" = maxDimMsg) :
    False := by
  have hh : ("URL does not point to an image (content-type: " ++ t ++ ")").data.head? =
      maxDimMsg.data.head? := congrArg (fun s => s.data.head?) h
  rw [ctype_msg_head t] at hh
  exact absurd hh (by decide)

/-- The content-type error message never equals the missing-input error. -/
theorem ctype_ne_noinput (t : String)
    (h : "URL does not point to an image (content-type: " ++ t ++ ")" = noInputMsg) :
    False := by
  have hh : ("URL does not point to an image (content-type: " ++ t ++ ")").data.head? =
      noInputMsg.data.head? := congrArg (fun s => s.data.head?) h
  rw [ctype_msg_head t] at hh
  exact absurd hh (by decide)

/-- When both validation checks pass, the handler never answers with either
of the two validation error bodies. -/
theorem convert_image_not_validation (env : Env) (req : Request)
    (hdim : ¬ (req.width > 512 ∨ req.height > 512))
    (hin : ¬ (pyOr req.url req.id = none ∨ pyOr req.url req.id = some "")) :
    (convert_image env req).1.body ≠
      Body.err { error := maxDimMsg, url_tested := none, suggestion := none } ∧
    (convert_image env req).1.body ≠
      Body.err { error := noInputMsg, url_tested := none, suggestion := none } := by
  constructor
  · simp only [convert_image]
    rw [if_neg hdim, if_neg hin]
    split
    · intro heq
      injection heq with h
      exact Option.noConfusion (congrArg ErrorBody.url_tested h)
    split
    · intro heq
      injection heq with h
      exact absurd (congrArg ErrorBody.error h) (by decide)
    split
    · intro heq
      injection heq with h
      exact ctype_ne_maxdim _ (congrArg ErrorBody.error h)
    split
    · intro heq
      injection heq with h
      exact absurd (congrArg ErrorBody.error h) (by decide)
    split
    · intro heq
      injection heq with h
      exact absurd (congrArg ErrorBody.error h) (by decide)
    · intro heq
      exact Body.noConfusion heq
  · simp only [convert_image]
    rw [if_neg hdim, if_neg hin]
    split
    · intro heq
      injection heq with h
      exact Option.noConfusion (congrArg ErrorBody.url_tested h)
    split
    · intro heq
      injection heq with h
      exact absurd (congrArg ErrorBody.error h) (by decide)
    split
    · intro heq
      injection heq with h
      exact ctype_ne_noinput _ (congrArg ErrorBody.error h)
    split
    · intro heq
      injection heq with h
      exact absurd (congrArg ErrorBody.error h) (by decide)
    split
    · intro heq
      injection heq with h
      exact absurd (congrArg ErrorBody.error h) (by decide)
    · intro heq
      exact Body.noConfusion heq

/-- C10: a request with width or height below 1 passes the input validation
(only the upper bound is checked): the handler performs a network fetch and
does not answer with either HTTP 400 invalid-input body. -/
theorem C10_low_dims_not_rejected (env : Env) (req : Request)
    (hwid : req.width ≤ 512) (hht : req.height ≤ 512)
    (hlow : req.width < 1 ∨ req.height < 1)
    (hin : ¬ (pyOr req.url req.id = none ∨ pyOr req.url req.id = some "")) :
    ReqEvent.imageFetch HeaderSet.browser ∈ (convert_image env req).2 ∧
    (convert_image env req).1.body ≠
      Body.err { error := maxDimMsg, url_tested := none, suggestion := none } ∧
    (convert_image env req).1.body ≠
      Body.err { error := noInputMsg, url_tested := none, suggestion := none } := by
  have hdim : ¬ (req.width > 512 ∨ req.height > 512) := by
    push_neg
    exact ⟨hwid, hht⟩
  refine ⟨?_, (convert_image_not_validation env req hdim hin).1,
    (convert_image_not_validation env req hdim hin).2⟩
  rw [convert_image_trace env req hdim hin]
  refine List.mem_append.mpr (Or.inr ?_)
  have hhead := (fetchImage_trace env).1
  cases hlog : (fetchImage env).2 with
  | nil => rw [hlog] at hhead; exact Option.noConfusion hhead
  | cons a l =>
    rw [hlog] at hhead
    injection hhead with hhead
    rw [← hhead]
    exact List.mem_cons_self a l

/-- A request asking for a 0x0 output with a valid source URL. -/
def req0 : Request :=
  { url := some "http://example.com/a.png", id := none, width := 0, height := 0 }

/-- Witness for C10 at width = height = 0. -/
theorem C10_low_dims_not_rejected_witness :
    ReqEvent.imageFetch HeaderSet.browser ∈ (convert_image envOk req0).2 ∧
    (convert_image envOk req0).1.body ≠
      Body.err { error := maxDimMsg, url_tested := none, suggestion := none } ∧
    (convert_image envOk req0).1.body ≠
      Body.err { error := noInputMsg, url_tested := none, suggestion := none } :=
  C10_low_dims_not_rejected envOk req0 (by decide) (by decide) (Or.inl (by decide))
    (by decide)

/-- Lean's ASCII digit test agrees with the range condition `'0' ≤ c ≤ '9'`. -/
theorem char_isDigit_iff (c : Char) : c.isDigit = true ↔ '0' ≤ c ∧ c ≤ '9' := by
  simp [Char.isDigit, decide_eq_true_iff]
  exact Iff.rfl

/-- The request whose source input is the single character U+00B2. -/
def reqSup : Request :=
  { url := some "²", id := none, width := 32, height := 32 }

/-- Counterexample for C5: the one-character string `²` (U+00B2, superscript
two) contains no decimal digit, yet `is_roblox_asset_id` classifies it as an
asset id (Python `str.isdigit` accepts Unicode digit characters beyond the
decimal ones), so the handler passes it to the asset lookup instead of using
it verbatim as the fetch URL. -/
theorem C5_digit_counterexample :
    ('²' ∈ "²".data ∧ ¬ ('0' ≤ '²' ∧ '²' ≤ '9')) ∧
    is_roblox_asset_id "²" = true ∧
    ReqEvent.thumbLookup "²" ∈ (convert_image envOk reqSup).2 := by
  refine ⟨⟨by decide, by decide⟩, by decide, ?_⟩
  decide

/-- C5 (amended): the input is passed to the asset-lookup-then-fallback
resolution iff Python `str.isdigit` holds of it, i.e. iff it is nonempty and
every character is a Unicode digit; restricted to ASCII inputs this is
exactly: nonempty and consisting solely of decimal digits `0`-`9`. -/
theorem C5_digit_amended (env : Env) (req : Request) (input : String)
    (hdim : ¬ (req.width > 512 ∨ req.height > 512))
    (hin2 : pyOr req.url req.id = some input) (hne : input ≠ "") :
    (ReqEvent.thumbLookup input ∈ (convert_image env req).2 ↔
      is_roblox_asset_id input = true) ∧
    ((∀ c ∈ input.data, c.toNat < 128) →
      (is_roblox_asset_id input = true ↔
        input ≠ "" ∧ ∀ c ∈ input.data, '0' ≤ c ∧ c ≤ '9')) := by
  have hin : ¬ (pyOr req.url req.id = none ∨ pyOr req.url req.id = some "") := by
    rw [hin2]
    rintro (h | h)
    · exact Option.noConfusion h
    · injection h with h
      exact hne h
  have htr := convert_image_trace env req hdim hin
  have hgetD : (pyOr req.url req.id).getD "" = input := by rw [hin2]; rfl
  rw [hgetD] at htr
  constructor
  · rw [htr]
    constructor
    · intro hmem
      by_cases hb : is_roblox_asset_id input = true
      · exact hb
      · exfalso
        rw [if_neg hb] at hmem
        rcases List.mem_append.mp hmem with h | h
        · exact absurd h (List.not_mem_nil _)
        · exact (fetchImage_trace env).2 input h
    · intro hyes
      rw [if_pos hyes]
      exact List.mem_append.mpr (Or.inl (List.mem_cons_self _ _))
  · intro hascii
    unfold is_roblox_asset_id pyStrIsDigit
    rw [Bool.and_eq_true]
    constructor
    · intro hall
      refine ⟨hne, ?_⟩
      intro c hc
      have hd := List.all_eq_true.mp hall.2 c hc
      unfold pyCharIsDigit at hd
      rw [Bool.or_eq_true, Bool.or_eq_true, Bool.or_eq_true] at hd
      rcases hd with ((hd | hd) | hd) | hd
      · exact (char_isDigit_iff c).mp hd
      · exfalso
        rw [decide_eq_true_iff] at hd
        have hbig : 128 ≤ c.toNat := by rw [hd]; decide
        exact absurd (hascii c hc) (by omega)
      · exfalso
        rw [decide_eq_true_iff] at hd
        have hbig : 128 ≤ c.toNat := by rw [hd]; decide
        exact absurd (hascii c hc) (by omega)
      · exfalso
        rw [decide_eq_true_iff] at hd
        have hbig : 128 ≤ c.toNat := by rw [hd]; decide
        exact absurd (hascii c hc) (by omega)
    · rintro ⟨hne2, hdig⟩
      refine ⟨?_, ?_⟩
      · rw [Bool.not_eq_true']
        cases hIE : input.isEmpty
        · rfl
        · exact absurd ((String.isEmpty_iff input).mp hIE) hne2
      · rw [List.all_eq_true]
        intro c hc
        have hd : c.isDigit = true := (char_isDigit_iff c).mpr (hdig c hc)
        unfold pyCharIsDigit
        rw [hd]
        rfl

/-- The request whose source input is the decimal string 42. -/
def reqNum : Request :=
  { url := some "42", id := none, width := 32, height := 32 }

/-- Witness for C5 (amended) at the decimal input 42. -/
theorem C5_digit_amended_witness :
    (ReqEvent.thumbLookup "42" ∈ (convert_image envOk reqNum).2 ↔
      is_roblox_asset_id "42" = true) ∧
    ((∀ c ∈ "42".data, c.toNat < 128) →
      (is_roblox_asset_id "42" = true ↔
        "42" ≠ "" ∧ ∀ c ∈ "42".data, '0' ≤ c ∧ c ≤ '9')) :=
  C5_digit_amended envOk reqNum "42" (by decide) (by decide) (by decide)

/-- A 403 Forbidden response. -/
def resp403 : HttpResponse := { status := 403, content := [], contentType := "" }

/-- A 429 Too Many Requests response. -/
def resp429 : HttpResponse := { status := 429, content := [], contentType := "" }

/-- A network answering 403 to the first fetch, 429 to the second, 200 after. -/
def envRetry : Env :=
  { envOk with
    net := fun n => if n = 0 then resp403 else if n = 1 then resp429 else okResponse }

/-- Counterexample for C4: when the first fetch is answered 403 and the
mobile-header retry is answered 429, the code performs a further retry:
three requests in total, i.e. two retries, not at most one. -/
theorem C4_retry_counterexample :
    (envRetry.net 0).status = 403 ∧ (envRetry.net 1).status = 429 ∧
    countFetches (fetchImage envRetry).2 = 3 ∧
    ¬ countFetches (fetchImage envRetry).2 ≤ 2 :=
  ⟨by decide, by decide, by decide, by decide⟩

/-- C4 (amended): the 403 branch retries at most once (with the mobile
header set) and the 429 branch retries at most once (with the original
browser headers after a 2-second sleep); a second consecutive failure of the
same kind is terminal; but a 403 whose retry is answered 429 triggers both
retries in sequence, so a request makes at most three fetch attempts, with
exactly the traces below. -/
theorem C4_retry_amended (env : Env) :
    countFetches (fetchImage env).2 ≤ 3 ∧
    ((env.net 0).status ≠ 403 ∧ (env.net 0).status ≠ 429 →
      fetchImage env = (env.net 0, [ReqEvent.imageFetch HeaderSet.browser])) ∧
    ((env.net 0).status = 403 ∧ (env.net 1).status ≠ 429 →
      fetchImage env = (env.net 1,
        [ReqEvent.imageFetch HeaderSet.browser,
         ReqEvent.imageFetch HeaderSet.mobileAlt])) ∧
    ((env.net 0).status ≠ 403 ∧ (env.net 0).status = 429 →
      fetchImage env = (env.net 1,
        [ReqEvent.imageFetch HeaderSet.browser, ReqEvent.sleepSecs 2,
         ReqEvent.imageFetch HeaderSet.browser])) ∧
    ((env.net 0).status = 403 ∧ (env.net 1).status = 429 →
      fetchImage env = (env.net 2,
        [ReqEvent.imageFetch HeaderSet.browser, ReqEvent.imageFetch HeaderSet.mobileAlt,
         ReqEvent.sleepSecs 2, ReqEvent.imageFetch HeaderSet.browser])) := by
  by_cases h0 : (env.net 0).status = 403
  · by_cases h1 : (env.net 1).status = 429
    · refine ⟨?_, ?_, ?_, ?_, ?_⟩ <;> simp [fetchImage, countFetches, h0, h1]
    · refine ⟨?_, ?_, ?_, ?_, ?_⟩ <;> simp [fetchImage, countFetches, h0, h1]
  · by_cases h2 : (env.net 0).status = 429
    · refine ⟨?_, ?_, ?_, ?_, ?_⟩ <;> simp [fetchImage, countFetches, h0, h2]
    · refine ⟨?_, ?_, ?_, ?_, ?_⟩ <;> simp [fetchImage, countFetches, h0, h2]

/-- Witness for C4 (amended): the 403-then-429 case at the concrete
environment `envRetry`. -/
theorem C4_retry_amended_witness :
    fetchImage envRetry = (envRetry.net 2,
      [ReqEvent.imageFetch HeaderSet.browser, ReqEvent.imageFetch HeaderSet.mobileAlt,
       ReqEvent.sleepSecs 2, ReqEvent.imageFetch HeaderSet.browser]) :=
  (C4_retry_amended envRetry).2.2.2.2 ⟨by decide, by decide⟩

/-- A 200 response declaring an HTML content type. -/
def respHtml : HttpResponse :=
  { status := 200, content := [60, 104], contentType := "text/html" }

/-- A network always answering `respHtml`. -/
def envHtml : Env := { envOk with net := fun _ => respHtml }

/-- A direct-URL request used against `envHtml`. -/
def reqUrl : Request :=
  { url := some "http://example.com/page", id := none, width := 32, height := 32 }

/-- Counterexample for C3: a fetched HTTP 200 response whose declared
content-type `text/html` is neither `image/*` nor `application/octet-stream`
is answered with HTTP 400, not 500 as the claim states. -/
theorem C3_content_type_counterexample :
    (envHtml.net 0).status = 200 ∧
    containsSub "image/" (pyLower (envHtml.net 0).contentType) = false ∧
    containsSub "application/octet-stream" (pyLower (envHtml.net 0).contentType) = false ∧
    (convert_image envHtml reqUrl).1 =
      { status := 400,
        body := Body.err
          { error := "URL does not point to an image (content-type: text/html)",
            url_tested := none, suggestion := none } } ∧
    (convert_image envHtml reqUrl).1.status ≠ 500 :=
  ⟨by decide, by decide, by decide, by decide, by decide⟩

/-- C3 (amended): when the fetched response has HTTP 200, a nonempty body,
and a declared (nonempty) content-type containing neither `image/` nor
`application/octet-stream`, the request fails terminally and is answered
with HTTP 400 and a JSON body carrying an error string. -/
theorem C3_content_type_amended (env : Env) (req : Request)
    (hdim : ¬ (req.width > 512 ∨ req.height > 512))
    (hin : ¬ (pyOr req.url req.id = none ∨ pyOr req.url req.id = some ""))
    (h200 : (fetchImage env).1.status = 200)
    (hlen : ¬ (fetchImage env).1.content.length = 0)
    (hct : pyLower (fetchImage env).1.contentType ≠ "" ∧
      ¬ (containsSub "image/" (pyLower (fetchImage env).1.contentType) = true ∨
         containsSub "application/octet-stream"
           (pyLower (fetchImage env).1.contentType) = true)) :
    (convert_image env req).1 =
      { status := 400,
        body := Body.err
          { error := "URL does not point to an image (content-type: " ++
              pyLower (fetchImage env).1.contentType ++ ")",
            url_tested := none, suggestion := none } } := by
  simp only [convert_image]
  rw [if_neg hdim, if_neg hin, if_neg (not_not_intro h200), if_neg hlen, if_pos hct]

/-- Witness for C3 (amended) at the concrete environment `envHtml`. -/
theorem C3_content_type_amended_witness :
    (convert_image envHtml reqUrl).1 =
      { status := 400,
        body := Body.err
          { error := "URL does not point to an image (content-type: " ++
              pyLower (fetchImage envHtml).1.contentType ++ ")",
            url_tested := none, suggestion := none } } :=
  C3_content_type_amended envHtml reqUrl (by decide) (by decide) (by decide) (by decide)
    ⟨by decide, by decide⟩

/-- Predicate from the claim's words: the PIL modes carrying an alpha
channel. -/
def modeHasAlpha : Mode → Bool
  | Mode.RGBA => true
  | Mode.LA => true
  | _ => false

/-- A 1x1 LA bitmap whose only pixel is fully transparent black. -/
def laTestImage : Bitmap :=
  { width := 1, height := 1, mode := Mode.LA, px := fun _ _ => [0, 0] }

/-- Counterexample for C6: mode LA carries an alpha channel, yet the
normalization converts it directly to RGB and drops the alpha: the fully
transparent black pixel stays black, whereas compositing over an opaque
white background (as the claim states for every alpha-carrying mode) would
give white. -/
theorem C6_alpha_counterexample :
    modeHasAlpha laTestImage.mode = true ∧
    blendWhite 0 0 = 255 ∧
    (normalize_mode laTestImage).px 0 0 = [0, 0, 0] ∧
    ¬ (normalize_mode laTestImage).px 0 0 =
        [blendWhite 0 0, blendWhite 0 0, blendWhite 0 0] :=
  ⟨by decide, by decide, by decide, by decide⟩

/-- C6 (amended): only RGBA bitmaps are composited over an opaque white
background, each channel becoming PIL's rounding division
DIV255(255·(255−a) + c·a); any other non-RGB mode is converted directly to
RGB: the alpha-carrying LA replicates the gray value and drops the alpha,
and the alpha-free L replicates the gray value.  For an RGBA
pixel with alpha 128 — the nearest representable value to halfway — and an
odd source channel value c, the composited channel equals the exact midpoint
(c + 255) / 2 between the source color and white. -/
theorem C6_alpha_amended (img : Bitmap) :
    (img.mode = Mode.RGBA → ∀ x y r g b a, img.px x y = [r, g, b, a] →
      (normalize_mode img).px x y = [blendWhite r a, blendWhite g a, blendWhite b a]) ∧
    (img.mode = Mode.LA → ∀ x y l a, img.px x y = [l, a] →
      (normalize_mode img).px x y = [l, l, l]) ∧
    (img.mode = Mode.L → ∀ x y v, img.px x y = [v] →
      (normalize_mode img).px x y = [v, v, v]) ∧
    (∀ c, c < 256 → c % 2 = 1 → blendWhite c 128 = (c + 255) / 2) := by
  refine ⟨?_, ?_, ?_, ?_⟩
  · intro hm x y r g b a hp
    unfold normalize_mode
    rw [if_pos (by simp [hm]), if_pos hm]
    simp [compositeOnWhite, hp]
  · intro hm x y l a hp
    unfold normalize_mode
    rw [if_pos (by simp [hm]), if_neg (by simp [hm])]
    simp [convertRGB, hp, hm]
  · intro hm x y v hp
    unfold normalize_mode
    rw [if_pos (by simp [hm]), if_neg (by simp [hm])]
    simp [convertRGB, hp, hm]
  · intro c hc hodd
    unfold blendWhite pilDiv255
    omega

/-- A 1x1 grayscale (mode L) bitmap whose only pixel has value 7. -/
def lTestImage : Bitmap :=
  { width := 1, height := 1, mode := Mode.L, px := fun _ _ => [7] }

/-- Witness for C6 (amended) at the RGBA test pixel (10, 20, 30, 128), at
the grayscale test pixel 7, and at the odd channel value 255. -/
theorem C6_alpha_amended_witness :
    (normalize_mode rgbaTestImage).px 0 0 =
      [blendWhite 10 128, blendWhite 20 128, blendWhite 30 128] ∧
    (normalize_mode lTestImage).px 0 0 = [7, 7, 7] ∧
    blendWhite 255 128 = (255 + 255) / 2 :=
  ⟨(C6_alpha_amended rgbaTestImage).1 rfl 0 0 10 20 30 128 rfl,
   (C6_alpha_amended lTestImage).2.2.1 rfl 0 0 7 rfl,
   (C6_alpha_amended rgbaTestImage).2.2.2 255 (by decide) (by decide)⟩
